import Mathlib

/-!
Shallow embedding of the LocalGPT HTTP service layer (src/server/http.rs).

The handlers from http.rs are translated directly.  The collaborators the
handlers call (the configuration value, the memory store and the session
backend) live outside the embedded source, so they are modelled from the
specification (§6) as records of result-valued operations, passed in as
parameters; `anyhow::Error` is modelled as the message string it is
converted to at the handler boundary (`e.to_string()`).
-/

/-- Modelled from the spec: the `server` section of the Config Snapshot,
carrying `server.bind` and `server.port` (§3, §6). -/
structure ServerConfig where
  bind : String
  port : Nat

/-- Modelled from the spec: the `agent` section of the Config Snapshot,
carrying the default model identifier, context-window size and
reserve-token budget (§3, §6). -/
structure AgentSettings where
  default_model : String
  context_window : Nat
  reserve_tokens : Nat

/-- Modelled from the spec: the Config Snapshot (§3).  The memory-store
construction parameters are opaque to the service layer, so their type is
a parameter `MC`. -/
structure Config (MC : Type) where
  server : ServerConfig
  agent : AgentSettings
  memory : MC

/-- Modelled from the spec: a result record of the memory store's search
operation (file identifier, start line, end line, content snippet,
relevance score, §4.2/§6).  The score is an `f64` in the source; no
arithmetic is ever performed on it here, so its type is a parameter. -/
structure MemoryRecord (Score : Type) where
  file : String
  line_start : Int
  line_end : Int
  content : String
  score : Score

/-- Modelled from the spec: the aggregate-count record returned by
`Store.stats()` (§6). -/
structure MemoryStats where
  workspace : String
  total_files : Nat
  total_chunks : Nat
  index_size_kb : Nat

/-- Modelled from the spec: the memory-store collaborator (`MemoryManager`),
a handle offering `search`, `stats` and `chunk_count`, each of which may
fail (§6).  Construction (`MemoryManager::new`) is modelled as a parameter
of type `MC → Except String (MemoryManager Score)` at each use site. -/
structure MemoryManager (Score : Type) where
  search : String → Nat → Except String (List (MemoryRecord Score))
  stats : Except String MemoryStats
  chunk_count : Except String Nat

/-- The per-request agent configuration built by the chat handler
(http.rs, `AgentConfig`): resolved model, context window, reserve
tokens. -/
structure AgentConfig where
  model : String
  context_window : Nat
  reserve_tokens : Nat

/-- Modelled from the spec: the session-backend operations
`startSession` and `runTurn` (§6), each of which may fail. -/
structure Backend where
  new_session : Except String Unit
  chat : String → Except String String

/-- Modelled from the spec: the Session Backend Instance (`Agent`),
constructed from an `AgentConfig`; its operations are those of its
backend (§6). -/
structure Agent where
  config : AgentConfig
  backend : Backend

/-- Modelled from the spec: `SessionBackend.effectiveModel()` returns the
model identifier the backend was constructed with — "the effective model
name actually used" (§4.2, §8). -/
def Agent.model (a : Agent) : String := a.config.model

/-- The JSON body of a chat request (http.rs, `ChatRequest`). -/
structure ChatRequest where
  message : String
  model : Option String

/-- The JSON body of a successful chat response (http.rs, `ChatResponse`). -/
structure ChatResponse where
  response : String
  model : String

/-- The query string of a memory-search request (http.rs, `SearchQuery`). -/
structure SearchQuery where
  q : String
  limit : Option Nat

/-- One element of a search response (http.rs, `SearchResult`). -/
structure SearchResult (Score : Type) where
  file : String
  line_start : Int
  line_end : Int
  content : String
  score : Score

/-- The JSON body of a successful search response (http.rs,
`SearchResponse`). -/
structure SearchResponse (Score : Type) where
  results : List (SearchResult Score)
  query : String

/-- The JSON body of the status response (http.rs, `StatusResponse`). -/
structure StatusResponse where
  version : String
  model : String
  memory_chunks : Nat

/-- The JSON body of the stats response (http.rs, `StatsResponse`). -/
structure StatsResponse where
  workspace : String
  total_files : Nat
  total_chunks : Nat
  index_size_kb : Nat

/-- An HTTP response as the handlers shape it: a status code together
with either a JSON success body (`Sum.inl`) or a plain-text error body
(`Sum.inr`), as produced by `Json(..).into_response()` and
`AppError(status, msg).into_response()`. -/
structure HttpResponse (B : Type) where
  status : Nat
  body : B ⊕ String

/-- `StatusCode::OK`. -/
def statusOK : Nat := 200

/-- `StatusCode::INTERNAL_SERVER_ERROR`. -/
def statusInternalServerError : Nat := 500

/-- The health-check handler body (http.rs, `health_check`): the literal
text `OK`. -/
def health_check : String := "OK"

/-- The response of `GET /health`: a `&'static str` turned into a
response, i.e. status 200 with the plain-text body.  It takes no
collaborator parameters: the handler invokes no adapter or store
operation. -/
def health_route : HttpResponse Empty :=
  { status := statusOK, body := Sum.inr health_check }

/-- The status handler body (http.rs, `status`): best-effort chunk count,
`memory.and_then(|m| m.chunk_count().ok()).unwrap_or(0)`.  `version` is
the compile-time `CARGO_PKG_VERSION` string. -/
def status {MC Score : Type} (memNew : MC → Except String (MemoryManager Score))
    (version : String) (config : Config MC) : StatusResponse :=
  let memory := (memNew config.memory).toOption
  { version := version
    model := config.agent.default_model
    memory_chunks := (memory.bind (fun m => m.chunk_count.toOption)).getD 0 }

/-- The response of `GET /api/status`: the handler returns
`Json<StatusResponse>`, which is always status 200 with the JSON body. -/
def status_route {MC Score : Type} (memNew : MC → Except String (MemoryManager Score))
    (version : String) (config : Config MC) : HttpResponse StatusResponse :=
  { status := statusOK, body := Sum.inl (status memNew version config) }

/-- The work the chat handler runs on the blocking worker (http.rs lines
126-142): construct the store, build the `AgentConfig` with the resolved
model, construct the agent, start a session, run the turn, and read back
the effective model.  Each `?` is an explicit short-circuiting match. -/
def chatWork {MC Score : Type} (memNew : MC → Except String (MemoryManager Score))
    (agentNew : AgentConfig → Config MC → MemoryManager Score → Except String Backend)
    (config : Config MC) (message : String) (model : Option String) :
    Except String ChatResponse :=
  match memNew config.memory with
  | Except.error e => Except.error e
  | Except.ok memory =>
    let agent_config : AgentConfig :=
      { model := model.getD config.agent.default_model
        context_window := config.agent.context_window
        reserve_tokens := config.agent.reserve_tokens }
    match agentNew agent_config config memory with
    | Except.error e => Except.error e
    | Except.ok backend =>
      let agent : Agent := { config := agent_config, backend := backend }
      match agent.backend.new_session with
      | Except.error e => Except.error e
      | Except.ok _ =>
        match agent.backend.chat message with
        | Except.error e => Except.error e
        | Except.ok response => Except.ok { response := response, model := agent.model }

/-- The chat handler (http.rs, `chat`): the work runs under
`spawn_blocking`, whose join may itself fail (`joinErr`); the outcome is
matched exactly as in lines 147-151. -/
def chat {MC Score : Type} (memNew : MC → Except String (MemoryManager Score))
    (agentNew : AgentConfig → Config MC → MemoryManager Score → Except String Backend)
    (joinErr : Option String) (config : Config MC) (request : ChatRequest) :
    HttpResponse ChatResponse :=
  let result : Except String (Except String ChatResponse) :=
    match joinErr with
    | some e => Except.error e
    | none => Except.ok (chatWork memNew agentNew config request.message request.model)
  match result with
  | Except.ok (Except.ok response) => { status := statusOK, body := Sum.inl response }
  | Except.ok (Except.error e) => { status := statusInternalServerError, body := Sum.inr e }
  | Except.error e => { status := statusInternalServerError, body := Sum.inr e }

/-- The search worker (http.rs, `memory_search_inner`): construct the
store, default the limit to 10, search, and copy each record field-wise
into a `SearchResult`. -/
def memory_search_inner {MC Score : Type}
    (memNew : MC → Except String (MemoryManager Score))
    (config : MC) (query : String) (limit : Option Nat) :
    Except String (SearchResponse Score) :=
  match memNew config with
  | Except.error e => Except.error e
  | Except.ok memory =>
    let limit := limit.getD 10
    match memory.search query limit with
    | Except.error e => Except.error e
    | Except.ok results =>
      Except.ok
        { results := results.map (fun r =>
            { file := r.file, line_start := r.line_start, line_end := r.line_end
              content := r.content, score := r.score })
          query := query }

/-- The search handler (http.rs, `memory_search`): success becomes a 200
JSON response, failure becomes the generic 500 with the message. -/
def memory_search {MC Score : Type}
    (memNew : MC → Except String (MemoryManager Score))
    (config : Config MC) (query : SearchQuery) :
    HttpResponse (SearchResponse Score) :=
  match memory_search_inner memNew config.memory query.q query.limit with
  | Except.ok response => { status := statusOK, body := Sum.inl response }
  | Except.error e => { status := statusInternalServerError, body := Sum.inr e }

/-- The stats worker (http.rs, `memory_stats_inner`): construct the
store, read its stats, and copy them field-wise. -/
def memory_stats_inner {MC Score : Type}
    (memNew : MC → Except String (MemoryManager Score))
    (config : MC) : Except String StatsResponse :=
  match memNew config with
  | Except.error e => Except.error e
  | Except.ok memory =>
    match memory.stats with
    | Except.error e => Except.error e
    | Except.ok stats =>
      Except.ok
        { workspace := stats.workspace, total_files := stats.total_files
          total_chunks := stats.total_chunks, index_size_kb := stats.index_size_kb }

/-- The stats handler (http.rs, `memory_stats`). -/
def memory_stats {MC Score : Type}
    (memNew : MC → Except String (MemoryManager Score))
    (config : Config MC) : HttpResponse StatsResponse :=
  match memory_stats_inner memNew config.memory with
  | Except.ok response => { status := statusOK, body := Sum.inl response }
  | Except.error e => { status := statusInternalServerError, body := Sum.inr e }

/-- The server value (http.rs, `Server`): it holds the configuration. -/
structure Server (MC : Type) where
  config : Config MC

/-- `Server::new` (http.rs lines 34-38): wraps a clone of the
configuration in `Ok`; the error branch of its `Result` type is never
taken. -/
def Server.new {MC : Type} (config : Config MC) : Except String (Server MC) :=
  Except.ok { config := config }

/-- The bind-address string `format!("{}:{}", bind, port)` (http.rs line
60). -/
def bind_addr_string {MC : Type} (config : Config MC) : String :=
  config.server.bind ++ ":" ++ toString config.server.port

/-- `Server::run` (http.rs lines 40-68), with the standard-library socket
address parser, the TCP bind and the serve loop as parameters: each `?`
is an explicit short-circuiting match, in source order — parse the
address first, only then bind and serve. -/
def Server.run {MC SockAddr Listener : Type}
    (parseAddr : String → Except String SockAddr)
    (tcpBind : SockAddr → Except String Listener)
    (serve : Listener → Except String Unit)
    (s : Server MC) : Except String Unit :=
  match parseAddr (bind_addr_string s.config) with
  | Except.error e => Except.error e
  | Except.ok addr =>
    match tcpBind addr with
    | Except.error e => Except.error e
    | Except.ok listener => serve listener

/-! Concrete collaborator instances used by the witnesses. -/

/-- A concrete configuration exercising the handlers. -/
def sampleConfig : Config Unit :=
  { server := { bind := "127.0.0.1", port := 8080 }
    agent := { default_model := "m1", context_window := 8192, reserve_tokens := 1024 }
    memory := () }

/-- A memory-store constructor that always fails. -/
def downStore : Unit → Except String (MemoryManager Unit) :=
  fun _ => Except.error "store unreachable"

/-- A concrete search record. -/
def sampleRecord : MemoryRecord Unit :=
  { file := "notes.md", line_start := 1, line_end := 3, content := "hello", score := () }

/-- A concrete memory manager whose search honours the at-most-limit
contract. -/
def sampleManager : MemoryManager Unit :=
  { search := fun _ limit => Except.ok (List.replicate (min limit 5) sampleRecord)
    stats := Except.ok { workspace := "ws", total_files := 2, total_chunks := 5, index_size_kb := 12 }
    chunk_count := Except.ok 5 }

/-- A memory-store constructor that always succeeds with
`sampleManager`. -/
def upStore : Unit → Except String (MemoryManager Unit) :=
  fun _ => Except.ok sampleManager

/-- A backend whose turn echoes its input message. -/
def echoBackend : Backend :=
  { new_session := Except.ok (), chat := fun m => Except.ok m }

/-- A backend constructor that always succeeds with the echo backend. -/
def echoAgentNew {MC Score : Type} :
    AgentConfig → Config MC → MemoryManager Score → Except String Backend :=
  fun _ _ _ => Except.ok echoBackend

/-! Helper lemmas. -/

/-- On success, the model field produced by the chat work is the
requested model when present, else the configured default. -/
theorem chatWork_model_eq {MC Score : Type}
    (memNew : MC → Except String (MemoryManager Score))
    (agentNew : AgentConfig → Config MC → MemoryManager Score → Except String Backend)
    (config : Config MC) (message : String) (model : Option String)
    (response : ChatResponse)
    (h : chatWork memNew agentNew config message model = Except.ok response) :
    response.model = model.getD config.agent.default_model := by
  cases h1 : memNew config.memory with
  | error e => simp [chatWork, h1] at h
  | ok memory =>
    cases h2 : agentNew
        { model := model.getD config.agent.default_model
          context_window := config.agent.context_window
          reserve_tokens := config.agent.reserve_tokens } config memory with
    | error e => simp [chatWork, h1, h2] at h
    | ok backend =>
      cases h3 : backend.new_session with
      | error e => simp [chatWork, h1, h2, h3] at h
      | ok u =>
        cases h4 : backend.chat message with
        | error e => simp [chatWork, h1, h2, h3, h4] at h
        | ok resp =>
          simp [chatWork, h1, h2, h3, h4, Agent.model] at h
          rw [← h]

/-! Claim theorems. -/

/-- C1: for every chat request that succeeds, the response's model field
equals the request's explicit model when one is given, and the configured
default model when the model field is omitted. -/
theorem chat_response_model {MC Score : Type}
    (memNew : MC → Except String (MemoryManager Score))
    (agentNew : AgentConfig → Config MC → MemoryManager Score → Except String Backend)
    (joinErr : Option String) (config : Config MC) (request : ChatRequest)
    (response : ChatResponse)
    (hok : (chat memNew agentNew joinErr config request).body = Sum.inl response) :
    (∀ m, request.model = some m → response.model = m) ∧
    (request.model = none → response.model = config.agent.default_model) := by
  have hmodel : response.model = request.model.getD config.agent.default_model := by
    cases joinErr with
    | some e => simp [chat] at hok
    | none =>
      cases hw : chatWork memNew agentNew config request.message request.model with
      | error e => simp [chat, hw] at hok
      | ok r =>
        have hr : r = response := by simpa [chat, hw] using hok
        subst hr
        exact chatWork_model_eq memNew agentNew config request.message request.model r hw
  constructor
  · intro m hm
    rw [hmodel, hm]
    rfl
  · intro hm
    rw [hmodel, hm]
    rfl

/-- Witness for C1 at a concrete request with an explicit model. -/
theorem chat_response_model_witness :
    (∀ m, (ChatRequest.mk "hi" (some "m2")).model = some m →
      (ChatResponse.mk "hi" "m2").model = m) ∧
    ((ChatRequest.mk "hi" (some "m2")).model = none →
      (ChatResponse.mk "hi" "m2").model = sampleConfig.agent.default_model) :=
  chat_response_model upStore echoAgentNew none sampleConfig
    (ChatRequest.mk "hi" (some "m2")) (ChatResponse.mk "hi" "m2") rfl

/-- C2: for every successful memory-search request, the response's query
field equals the request's `q` parameter exactly, and under the
collaborator contract that the store's search returns at most `limit`
records, the results array has length at most the request's limit, or at
most 10 when the limit is omitted. -/
theorem memory_search_query_and_bound {MC Score : Type}
    (memNew : MC → Except String (MemoryManager Score))
    (config : Config MC) (query : SearchQuery) (response : SearchResponse Score)
    (hcontract : ∀ m, memNew config.memory = Except.ok m →
      ∀ q l rs, m.search q l = Except.ok rs → rs.length ≤ l)
    (hok : (memory_search memNew config query).body = Sum.inl response) :
    response.query = query.q ∧ response.results.length ≤ query.limit.getD 10 := by
  cases h1 : memory_search_inner memNew config.memory query.q query.limit with
  | error e => simp [memory_search, h1] at hok
  | ok r =>
    have hr : r = response := by simpa [memory_search, h1] using hok
    subst hr
    cases h2 : memNew config.memory with
    | error e => simp [memory_search_inner, h2] at h1
    | ok memory =>
      cases h3 : memory.search query.q (query.limit.getD 10) with
      | error e => simp [memory_search_inner, h2, h3] at h1
      | ok rs =>
        have hlen := hcontract memory h2 query.q (query.limit.getD 10) rs h3
        simp [memory_search_inner, h2, h3] at h1
        rw [← h1]
        exact ⟨rfl, by simpa using hlen⟩

/-- Witness for C2 at a concrete request with limit 2 against a store
returning exactly two records. -/
theorem memory_search_query_and_bound_witness :
    (SearchResponse.mk
        (List.map (fun r => SearchResult.mk r.file r.line_start r.line_end r.content r.score)
          (List.replicate 2 sampleRecord)) "foo").query = "foo" ∧
    (SearchResponse.mk
        (List.map (fun r => SearchResult.mk r.file r.line_start r.line_end r.content r.score)
          (List.replicate 2 sampleRecord)) "foo").results.length ≤
      (SearchQuery.mk "foo" (some 2)).limit.getD 10 := by
  refine memory_search_query_and_bound upStore sampleConfig (SearchQuery.mk "foo" (some 2)) _
    ?_ rfl
  intro m hm q l rs hs
  have hm2 : sampleManager = m := by simpa [upStore] using hm
  rw [← hm2] at hs
  have hrs : List.replicate (min l 5) sampleRecord = rs := by
    simpa [sampleManager] using hs
  rw [← hrs, List.length_replicate]
  exact Nat.min_le_left l 5

/-- C3: the status handler returns status 200 with a JSON body for every
outcome of the memory-store collaborator, and reports zero chunks when
store construction or the chunk-count query fails. -/
theorem status_route_best_effort {MC Score : Type}
    (memNew : MC → Except String (MemoryManager Score))
    (version : String) (config : Config MC) :
    (status_route memNew version config).status = 200 ∧
    (status_route memNew version config).body =
      Sum.inl (status memNew version config) ∧
    (∀ e, memNew config.memory = Except.error e →
      (status memNew version config).memory_chunks = 0) ∧
    (∀ m e, memNew config.memory = Except.ok m → m.chunk_count = Except.error e →
      (status memNew version config).memory_chunks = 0) := by
  refine ⟨rfl, rfl, ?_, ?_⟩
  · intro e he
    simp [status, he, Except.toOption]
  · intro m e hm hc
    simp [status, hm, hc, Except.toOption]

/-- Witness for C3 with a store whose construction fails. -/
theorem status_route_best_effort_witness :
    (status_route downStore "0.1.0" sampleConfig).status = 200 ∧
    (status downStore "0.1.0" sampleConfig).memory_chunks = 0 :=
  ⟨(status_route_best_effort downStore "0.1.0" sampleConfig).1,
    (status_route_best_effort downStore "0.1.0" sampleConfig).2.2.1 "store unreachable" rfl⟩

/-- C4: on the chat, memory-search and memory-stats routes, every adapter
failure — whether from the blocking work itself or from the join of the
worker — is mapped to status 500 with the failure's message as the body
text, and no status other than 200 or 500 is ever produced. -/
theorem adapter_failures_map_to_500 {MC Score : Type}
    (memNew : MC → Except String (MemoryManager Score))
    (agentNew : AgentConfig → Config MC → MemoryManager Score → Except String Backend)
    (config : Config MC) (request : ChatRequest) (query : SearchQuery) (e : String) :
    (chatWork memNew agentNew config request.message request.model = Except.error e →
      chat memNew agentNew none config request =
        { status := 500, body := Sum.inr e }) ∧
    (chat memNew agentNew (some e) config request =
      { status := 500, body := Sum.inr e }) ∧
    (memory_search_inner memNew config.memory query.q query.limit = Except.error e →
      memory_search memNew config query = { status := 500, body := Sum.inr e }) ∧
    (memory_stats_inner memNew config.memory = Except.error e →
      memory_stats memNew config = { status := 500, body := Sum.inr e }) ∧
    (∀ joinErr : Option String,
      (chat memNew agentNew joinErr config request).status = 200 ∨
      (chat memNew agentNew joinErr config request).status = 500) ∧
    ((memory_search memNew config query).status = 200 ∨
      (memory_search memNew config query).status = 500) ∧
    ((memory_stats memNew config).status = 200 ∨
      (memory_stats memNew config).status = 500) := by
  refine ⟨?_, ?_, ?_, ?_, ?_, ?_, ?_⟩
  · intro hw
    simp [chat, hw, statusInternalServerError]
  · simp [chat, statusInternalServerError]
  · intro hs
    simp [memory_search, hs, statusInternalServerError]
  · intro hs
    simp [memory_stats, hs, statusInternalServerError]
  · intro joinErr
    cases joinErr with
    | some e2 => right; simp [chat, statusInternalServerError]
    | none =>
      cases hw : chatWork memNew agentNew config request.message request.model with
      | error e2 => right; simp [chat, hw, statusInternalServerError]
      | ok r => left; simp [chat, hw, statusOK]
  · cases hs : memory_search_inner memNew config.memory query.q query.limit with
    | error e2 => right; simp [memory_search, hs, statusInternalServerError]
    | ok r => left; simp [memory_search, hs, statusOK]
  · cases hs : memory_stats_inner memNew config.memory with
    | error e2 => right; simp [memory_stats, hs, statusInternalServerError]
    | ok r => left; simp [memory_stats, hs, statusOK]

/-- Witness for C4 with a store whose construction fails and a failing
worker join. -/
theorem adapter_failures_map_to_500_witness :
    chat downStore echoAgentNew none sampleConfig (ChatRequest.mk "hi" none) =
      { status := 500, body := Sum.inr "store unreachable" } ∧
    chat downStore echoAgentNew (some "join failed") sampleConfig (ChatRequest.mk "hi" none) =
      { status := 500, body := Sum.inr "join failed" } ∧
    memory_search downStore sampleConfig (SearchQuery.mk "foo" none) =
      { status := 500, body := Sum.inr "store unreachable" } ∧
    memory_stats downStore sampleConfig =
      { status := 500, body := Sum.inr "store unreachable" } :=
  ⟨(adapter_failures_map_to_500 downStore echoAgentNew sampleConfig
      (ChatRequest.mk "hi" none) (SearchQuery.mk "foo" none) "store unreachable").1 rfl,
   (adapter_failures_map_to_500 downStore echoAgentNew sampleConfig
      (ChatRequest.mk "hi" none) (SearchQuery.mk "foo" none) "join failed").2.1,
   (adapter_failures_map_to_500 downStore echoAgentNew sampleConfig
      (ChatRequest.mk "hi" none) (SearchQuery.mk "foo" none) "store unreachable").2.2.1 rfl,
   (adapter_failures_map_to_500 downStore echoAgentNew sampleConfig
      (ChatRequest.mk "hi" none) (SearchQuery.mk "foo" none) "store unreachable").2.2.2.1 rfl⟩

/-- C5: the health route returns status 200 with body exactly the text
OK, unconditionally; its definition takes no collaborator parameters, so
no adapter or store operation is involved. -/
theorem health_route_always_ok :
    health_route.status = 200 ∧ health_route.body = Sum.inr "OK" :=
  ⟨rfl, rfl⟩

/-- C7: when the configured bind and port combine into a string the
socket-address parser rejects, `Server.run` fails with that parse error
before binding or serving — for every possible bind and serve behaviour —
and the handlers never invoke the address parser: the search, stats and
status routes are independent of the server bind configuration, and the
chat route touches it only by handing the configuration to the backend
constructor collaborator, so the malformed address is never surfaced per
request. -/
theorem run_fails_at_startup {MC SockAddr Listener : Type}
    (parseAddr : String → Except String SockAddr) (s : Server MC) (e : String)
    (hparse : parseAddr (bind_addr_string s.config) = Except.error e) :
    (∀ (tcpBind : SockAddr → Except String Listener)
        (serve : Listener → Except String Unit),
      Server.run parseAddr tcpBind serve s = Except.error e) ∧
    (∀ (Score : Type) (memNew : MC → Except String (MemoryManager Score))
        (query : SearchQuery) (sv : ServerConfig),
      memory_search memNew { s.config with server := sv } query =
        memory_search memNew s.config query) ∧
    (∀ (Score : Type) (memNew : MC → Except String (MemoryManager Score))
        (sv : ServerConfig),
      memory_stats memNew { s.config with server := sv } =
        memory_stats memNew s.config) ∧
    (∀ (Score : Type) (memNew : MC → Except String (MemoryManager Score))
        (version : String) (sv : ServerConfig),
      status_route memNew version { s.config with server := sv } =
        status_route memNew version s.config) := by
  refine ⟨?_, ?_, ?_, ?_⟩
  · intro tcpBind serve
    simp [Server.run, hparse]
  · intro Score memNew query sv
    rfl
  · intro Score memNew sv
    rfl
  · intro Score memNew version sv
    rfl

/-- Witness for C7 with a parser that rejects the sample address. -/
theorem run_fails_at_startup_witness :
    Server.run (fun _ => (Except.error "invalid socket address" : Except String Unit))
      (fun _ => (Except.ok () : Except String Unit)) (fun _ => Except.ok ())
      (Server.mk sampleConfig) = Except.error "invalid socket address" :=
  (run_fails_at_startup (fun _ => Except.error "invalid socket address")
    (Server.mk sampleConfig) "invalid socket address" rfl).1
    (fun _ => Except.ok ()) (fun _ => Except.ok ())

/-- C8: the chat handler performs no trimming and no non-emptiness check
on the message: against a backend whose turn echoes its input, the chat
work succeeds for every message — the empty string included — and the
echoed response equals the request's message verbatim. -/
theorem chat_message_forwarded_unchanged {MC Score : Type}
    (memNew : MC → Except String (MemoryManager Score)) (config : Config MC)
    (m : MemoryManager Score) (hm : memNew config.memory = Except.ok m)
    (message : String) (model : Option String) :
    chatWork memNew (fun _ _ _ => Except.ok echoBackend) config message model =
      Except.ok { response := message, model := model.getD config.agent.default_model } := by
  simp [chatWork, hm, echoBackend, Agent.model]

/-- Witness for C8 at the empty message. -/
theorem chat_message_forwarded_unchanged_witness :
    chatWork upStore (fun _ _ _ => Except.ok echoBackend) sampleConfig "" none =
      Except.ok { response := ""
                  model := ((none : Option String).getD sampleConfig.agent.default_model) } :=
  chat_message_forwarded_unchanged upStore sampleConfig sampleManager rfl "" none

/-- C9: `Server.new` never fails — for every configuration it returns a
success carrying a server holding that configuration. -/
theorem server_new_never_fails {MC : Type} (config : Config MC) :
    Server.new config = Except.ok { config := config } :=
  rfl

/-- C10: on a successful search, the results array is exactly the
element-wise image of the store's record sequence — same length, same
order, each record's file, line bounds, content and score copied
unchanged. -/
theorem search_results_faithful {MC Score : Type}
    (memNew : MC → Except String (MemoryManager Score)) (config : MC)
    (q : String) (limit : Option Nat) (m : MemoryManager Score)
    (recs : List (MemoryRecord Score))
    (hm : memNew config = Except.ok m)
    (hs : m.search q (limit.getD 10) = Except.ok recs) :
    memory_search_inner memNew config q limit =
      Except.ok
        { results := recs.map (fun r =>
            { file := r.file, line_start := r.line_start, line_end := r.line_end
              content := r.content, score := r.score })
          query := q } := by
  simp [memory_search_inner, hm, hs]

/-- Witness for C10 against a store returning two concrete records. -/
theorem search_results_faithful_witness :
    memory_search_inner upStore () "foo" (some 2) =
      Except.ok
        { results := (List.replicate 2 sampleRecord).map (fun r =>
            { file := r.file, line_start := r.line_start, line_end := r.line_end
              content := r.content, score := r.score })
          query := "foo" } :=
  search_results_faithful upStore () "foo" (some 2) sampleManager
    (List.replicate 2 sampleRecord) rfl rfl

/-- Witness for C9 at the sample configuration. -/
theorem server_new_never_fails_witness :
    Server.new sampleConfig = Except.ok { config := sampleConfig } :=
  server_new_never_fails sampleConfig
